import Mathlib

/-!
Verification development for the QuantLib/Scipy forward-curve calibration
program (`Program.py`).  The Python source is shallowly embedded: pure
string-dispatch helpers become Lean functions over `String`/`List Char`,
Python `None` returns become `Option.none`, raised built-in exceptions
become `Except.error` of a `PyErr`, machine floats are modelled by `ℚ`,
and the externally supplied QuantLib pricing kernel is an uninterpreted
function parameter.  Calendar, schedule and date arithmetic delegated to
the external library are modelled from the specification (each such
definition carries a doc comment saying so).
-/

namespace CurveCalib

/-- Built-in Python exception kinds that the embedded code can raise.
The source defines no error type of its own (in particular there is no
`ConfigurationError` class anywhere in the program); `keyError`,
`indexError` and `valueError` model the corresponding Python built-ins,
and `qlError` models an exception raised inside the QuantLib bindings
(invalid date, unparsable period string). -/
inductive PyErr where
  | keyError
  | indexError
  | valueError
  | qlError
deriving DecidableEq, Inhabited

instance {ε α : Type} [DecidableEq ε] [DecidableEq α] : DecidableEq (Except ε α) := fun a b =>
  match a, b with
  | .ok x, .ok y => if h : x = y then .isTrue (by rw [h]) else .isFalse (by simp [h])
  | .error e, .error f => if h : e = f then .isTrue (by rw [h]) else .isFalse (by simp [h])
  | .ok _, .error _ => .isFalse (by simp)
  | .error _, .ok _ => .isFalse (by simp)

/-- ASCII upper-casing of one character, modelling Python's `str.upper`
on the ASCII inputs this program feeds it. -/
def charUpper (c : Char) : Char :=
  if c = 'a' then 'A' else if c = 'b' then 'B' else if c = 'c' then 'C'
  else if c = 'd' then 'D' else if c = 'e' then 'E' else if c = 'f' then 'F'
  else if c = 'g' then 'G' else if c = 'h' then 'H' else if c = 'i' then 'I'
  else if c = 'j' then 'J' else if c = 'k' then 'K' else if c = 'l' then 'L'
  else if c = 'm' then 'M' else if c = 'n' then 'N' else if c = 'o' then 'O'
  else if c = 'p' then 'P' else if c = 'q' then 'Q' else if c = 'r' then 'R'
  else if c = 's' then 'S' else if c = 't' then 'T' else if c = 'u' then 'U'
  else if c = 'v' then 'V' else if c = 'w' then 'W' else if c = 'x' then 'X'
  else if c = 'y' then 'Y' else if c = 'z' then 'Z' else c

/-- Python's `s.upper()` on the character list of a string. -/
def pyUpper (l : List Char) : List Char := l.map charUpper

/-- Python's `s.split('.')`: cut the character list at every dot.
`"" → [""]`, and consecutive dots yield empty pieces, as in Python. -/
def splitOnDot : List Char → List (List Char)
  | [] => [[]]
  | c :: t =>
    let r := splitOnDot t
    if c = '.' then [] :: r else (c :: r.headD []) :: r.tail

/-- Characters matched by the regex class `[\w']` used in
`re.findall(r"[\w']+", s)`: alphanumerics, underscore and apostrophe
(the apostrophe is character code 39). -/
def isWordChar (c : Char) : Bool := c.isAlphanum || c = '_' || c.toNat = 39

/-- Python's `re.findall(r"[\w']+", s)`: the maximal runs of word
characters of the string. -/
def tokenize : List Char → List (List Char)
  | [] => []
  | c :: t =>
    let r := tokenize t
    if isWordChar c then
      match t with
      | d :: _ => if isWordChar d then (c :: r.headD []) :: r.tail else [c] :: r
      | [] => [[c]]
    else r

/-- Digit-string to natural number (the core of Python's `int`). -/
def natOfDigits (l : List Char) : ℕ :=
  l.foldl (fun acc c => acc * 10 + (c.toNat - 48)) 0

/-- Python's `int(token)` on a regex token.  A nonempty all-digit token
parses; anything else raises `ValueError`.  (Python's `int` additionally
accepts signs, surrounding whitespace and interior underscores; no such
token reaches `int` in this program, so they are not modelled.) -/
def pyIntTok (l : List Char) : Except PyErr ℕ :=
  if !l.isEmpty && l.all Char.isDigit then .ok (natOfDigits l) else .error .valueError

/-- Python's `lst[i]`: out-of-range access raises `IndexError`. -/
def pyIndex {α : Type} (l : List α) (i : ℕ) : Except PyErr α :=
  match l.get? i with
  | some a => .ok a
  | none => .error .indexError

/-- Gregorian calendar date, modelling a `ql.Date`. -/
structure PDate where
  year : ℕ
  month : ℕ
  day : ℕ
deriving DecidableEq, Inhabited

/-- Gregorian leap-year rule. -/
def isLeap (y : ℕ) : Bool := y % 4 = 0 && (y % 100 ≠ 0 || y % 400 = 0)

/-- Number of days in a month of a given year. -/
def daysInMonth (y m : ℕ) : ℕ :=
  if m = 2 then (if isLeap y then 29 else 28)
  else if m = 4 ∨ m = 6 ∨ m = 9 ∨ m = 11 then 30 else 31

/-- Validity check performed by the `ql.Date` constructor: QuantLib
accepts years 1901–2199 and a day within the month. -/
def qlDateValid (y m d : ℕ) : Bool :=
  1901 ≤ y && y ≤ 2199 && 1 ≤ m && m ≤ 12 && 1 ≤ d && d ≤ daysInMonth y m

/-- The `monthDictionary` of `Convert.to_date`: exactly the zero-padded
two-digit keys `'01'`–`'12'` map to month numbers. -/
def monthOfTok (t : List Char) : Option ℕ :=
  if t = (r"01").data then some 1 else if t = (r"02").data then some 2
  else if t = (r"03").data then some 3 else if t = (r"04").data then some 4
  else if t = (r"05").data then some 5 else if t = (r"06").data then some 6
  else if t = (r"07").data then some 7 else if t = (r"08").data then some 8
  else if t = (r"09").data then some 9 else if t = (r"10").data then some 10
  else if t = (r"11").data then some 11 else if t = (r"12").data then some 12
  else none

/-- Business-day adjustment rule enumerators (`ql.Following`, …). -/
inductive Conv where
  | following
  | modifiedFollowing
  | preceding
  | modifiedPreceding
  | unadjusted
deriving DecidableEq, Inhabited

/-- Holiday-calendar objects the program can construct. -/
inductive Cal where
  | target
  | unitedStates
  | unitedKingdom
deriving DecidableEq, Inhabited

/-- Swap direction enumerators. -/
inductive SwapType where
  | payer
  | receiver
deriving DecidableEq, Inhabited

/-- Payment-frequency enumerators. -/
inductive Frequency where
  | daily
  | weekly
  | monthly
  | quarterly
  | semiannual
  | annual
deriving DecidableEq, Inhabited

/-- Schedule date-generation rule enumerators. -/
inductive GenRule where
  | backward
  | forward
deriving DecidableEq, Inhabited

/-- Day-count convention objects the program can construct. -/
inductive DayCounter where
  | actual360
  | actual365Fixed
  | actualActual
  | actual365NoLeap
  | business252
  | oneDayCounter
  | simpleDayCounter
  | thirty360
deriving DecidableEq, Inhabited

/-- Time units of a `ql.Period`. -/
inductive PeriodUnit where
  | day
  | week
  | month
  | year
deriving DecidableEq, Inhabited

/-- A `ql.Period`: a count of time units. -/
structure Period where
  n : ℕ
  unit : PeriodUnit
deriving DecidableEq, Inhabited

/-- Families of ibor indexes the program can construct. -/
inductive IborFamily where
  | usdLibor
  | euribor
deriving DecidableEq, Inhabited

/-- Per-curve forward-rate input handed to the external pricing library:
the knot dates, the full forward-rate vector, and the day count and
calendar the curve accounts year fractions with (the arguments of
`ql.ForwardCurve`). -/
structure CurveInput where
  dates : List PDate
  rates : List ℚ
  dayCount : DayCounter
  calendar : Cal
deriving DecidableEq, Inhabited

/-- An ibor index object: family, tenor, and the forwarding term
structure currently linked to it (`none` for a freshly constructed
index). -/
structure IborIndex where
  family : IborFamily
  tenor : Period
  fwd : Option CurveInput
deriving DecidableEq, Inhabited

namespace Convert

/-- Embeds `Convert.to_date`.  Mirrors Python's left-to-right argument
evaluation of `ql.Date(int(arr[2]), monthDictionary[arr[1]], int(arr[0]))`:
the day token is indexed (IndexError when fewer than three tokens) and
parsed first, then the month token is looked up in the dictionary
(KeyError when it is not one of `'01'`–`'12'`), then the year token is
parsed; finally the QuantLib date constructor validates the triple. -/
def to_date (s : String) : Except PyErr PDate :=
  let arr := tokenize s.data
  match pyIndex arr 2 with
  | .error e => .error e
  | .ok dayTok =>
    match pyIntTok dayTok with
    | .error e => .error e
    | .ok d =>
      match monthOfTok (arr.getD 1 []) with
      | none => .error .keyError
      | some m =>
        match pyIntTok (arr.getD 0 []) with
        | .error e => .error e
        | .ok y => if qlDateValid y m d then .ok ⟨y, m, d⟩ else .error .qlError

/-- Dispatch of `Convert.to_businessDayConvention` on the upper-cased
input; falling off the chain returns Python `None`, i.e. `none`. -/
def conventionOfKey (u : List Char) : Option Conv :=
  if u = (r"FOLLOWING").data then some .following
  else if u = (r"MODIFIEDFOLLOWING").data then some .modifiedFollowing
  else if u = (r"PRECEDING").data then some .preceding
  else if u = (r"MODIFIEDPRECEDING").data then some .modifiedPreceding
  else if u = (r"UNADJUSTED").data then some .unadjusted
  else none

/-- Embeds `Convert.to_businessDayConvention`. -/
def to_businessDayConvention (s : String) : Option Conv :=
  conventionOfKey (pyUpper s.data)

/-- Dispatch of `Convert.to_calendar` on the upper-cased input. -/
def calendarOfKey (u : List Char) : Option Cal :=
  if u = (r"TARGET").data then some .target
  else if u = (r"UNITEDSTATES").data then some .unitedStates
  else if u = (r"UNITEDKINGDOM").data then some .unitedKingdom
  else none

/-- Embeds `Convert.to_calendar`. -/
def to_calendar (s : String) : Option Cal :=
  calendarOfKey (pyUpper s.data)

/-- Dispatch of `Convert.to_swapType` on the upper-cased input. -/
def swapTypeOfKey (u : List Char) : Option SwapType :=
  if u = (r"PAYER").data then some .payer
  else if u = (r"RECEIVER").data then some .receiver
  else none

/-- Embeds `Convert.to_swapType`. -/
def to_swapType (s : String) : Option SwapType :=
  swapTypeOfKey (pyUpper s.data)

/-- Dispatch of `Convert.to_frequency` on the upper-cased input. -/
def frequencyOfKey (u : List Char) : Option Frequency :=
  if u = (r"DAILY").data then some .daily
  else if u = (r"WEEKLY").data then some .weekly
  else if u = (r"MONTHLY").data then some .monthly
  else if u = (r"QUARTERLY").data then some .quarterly
  else if u = (r"SEMIANNUAL").data then some .semiannual
  else if u = (r"ANNUAL").data then some .annual
  else none

/-- Embeds `Convert.to_frequency`. -/
def to_frequency (s : String) : Option Frequency :=
  frequencyOfKey (pyUpper s.data)

/-- Dispatch of `Convert.to_dateGenerationRule` on the upper-cased input. -/
def genRuleOfKey (u : List Char) : Option GenRule :=
  if u = (r"BACKWARD").data then some .backward
  else if u = (r"FORWARD").data then some .forward
  else none

/-- Embeds `Convert.to_dateGenerationRule`. -/
def to_dateGenerationRule (s : String) : Option GenRule :=
  genRuleOfKey (pyUpper s.data)

/-- Dispatch of `Convert.to_dayCounter` on the upper-cased input. -/
def dayCounterOfKey (u : List Char) : Option DayCounter :=
  if u = (r"ACTUAL360").data then some .actual360
  else if u = (r"ACTUAL365FIXED").data then some .actual365Fixed
  else if u = (r"ACTUALACTUAL").data then some .actualActual
  else if u = (r"ACTUAL365NOLEAP").data then some .actual365NoLeap
  else if u = (r"BUSINESS252").data then some .business252
  else if u = (r"ONEDAYCOUNTER").data then some .oneDayCounter
  else if u = (r"SIMPLEDAYCOUNTER").data then some .simpleDayCounter
  else if u = (r"THIRTY360").data then some .thirty360
  else none

/-- Embeds `Convert.to_dayCounter`. -/
def to_dayCounter (s : String) : Option DayCounter :=
  dayCounterOfKey (pyUpper s.data)

/-- Time-unit letter of a tenor string.  Modelled from the spec: the
external library's period parser recognises the unit letter of a tenor
such as `3M` in either letter case, so the dispatch is written on the
upper-cased character. -/
def unitOfChar (c : Char) : Option PeriodUnit :=
  if c = 'D' then some .day else if c = 'W' then some .week
  else if c = 'M' then some .month else if c = 'Y' then some .year
  else none

/-- Tenor parsing on an upper-cased character list.  Modelled from the
spec: the external library's `ql.Period(string)` parser accepts a digit
run followed by a single unit letter (multi-part tenors such as `1Y3M`
are not used by this program and are not modelled). -/
def parsePeriodU (l : List Char) : Option Period :=
  let ds := l.takeWhile Char.isDigit
  match l.dropWhile Char.isDigit with
  | [u] => if ds.isEmpty then none else (unitOfChar u).map (fun pu => ⟨natOfDigits ds, pu⟩)
  | _ => none

/-- Dispatch of `Convert.to_iborIndex` on the dot-split, upper-cased
pieces of the input.  A recognised family with a parsable tenor yields
an index with no forwarding curve linked; a recognised family with no
second piece raises `IndexError` (Python evaluates `s[1]` inside the
matching branch); an unrecognised family returns `None`. -/
def iborDispatch : List (List Char) → Except PyErr (Option IborIndex)
  | f :: ten :: _ =>
    if f = (r"USDLIBOR").data then
      match parsePeriodU ten with
      | some p => .ok (some ⟨.usdLibor, p, none⟩)
      | none => .error .qlError
    else if f = (r"EURIBOR").data then
      match parsePeriodU ten with
      | some p => .ok (some ⟨.euribor, p, none⟩)
      | none => .error .qlError
    else .ok none
  | [f] =>
    if f = (r"USDLIBOR").data ∨ f = (r"EURIBOR").data then .error .indexError
    else .ok none
  | [] => .ok none

/-- Embeds `Convert.to_iborIndex`: split the input on dots, upper-case
the family piece, parse the tenor piece. -/
def to_iborIndex (s : String) : Except PyErr (Option IborIndex) :=
  iborDispatch ((splitOnDot s.data).map pyUpper)

end Convert

/-!
Date arithmetic, the TARGET holiday calendar, business-day adjustment
and schedule generation.  The program delegates these to the external
library; they are modelled here from the specification (sections 4.1 and
4.2: pure calendar/day-count engine and the step-one-period-at-a-time
schedule generator), instantiated with the standard Gregorian-calendar
arithmetic and the TARGET holiday rule the program consumes.
-/

/-- Rata Die day number of a Gregorian date (day 1 = 1 January of year
one, a Monday).  Standard Gregorian day-count formula. -/
def rataDie (d : PDate) : ℕ :=
  let y := d.year - 1
  let core := 365 * y + y / 4 + y / 400 + (367 * d.month - 362) / 12 + d.day
  let corr := y / 100 + (if d.month ≤ 2 then 0 else if isLeap d.year then 1 else 2)
  core - corr

/-- Day of week: 0 = Sunday … 6 = Saturday. -/
def weekday (d : PDate) : ℕ := rataDie d % 7

/-- Saturday-or-Sunday test. -/
def isWeekend (d : PDate) : Bool := weekday d = 0 || weekday d = 6

/-- Month and day of Easter Sunday of a Gregorian year (anonymous
Gregorian computus). -/
def easterSunday (y : ℕ) : ℕ × ℕ :=
  let a := y % 19
  let b := y / 100
  let c := y % 100
  let d := b / 4
  let e := b % 4
  let f := (b + 8) / 25
  let g := (b + 1 - f) / 3
  let h := (19 * a + b + 15 - d - g) % 30
  let i := c / 4
  let k := c % 4
  let l := (32 + 2 * e + 2 * i - h - k) % 7
  let m := (a + 11 * h + 22 * l) / 451
  let mo := (h + l + 114 - 7 * m) / 31
  let da := (h + l + 114 - 7 * m) % 31 + 1
  (mo, da)

/-- Rata Die number of Easter Monday of a year. -/
def easterMondayNum (y : ℕ) : ℕ :=
  let p := easterSunday y
  rataDie ⟨y, p.1, p.2⟩ + 1

/-- Modelled from the spec: the TARGET holiday rule consumed by the
program — New Year's Day; Good Friday and Easter Monday (from 2000);
Labour Day (from 2000); Christmas; Day of Goodwill (from 2000); and the
special year-end closing days of 1998, 1999 and 2001. -/
def targetIsHoliday (d : PDate) : Bool :=
  (d.month = 1 && d.day = 1)
  || (d.year ≥ 2000 && d.month = 5 && d.day = 1)
  || (d.year ≥ 2000 && (rataDie d + 3 = easterMondayNum d.year))
  || (d.year ≥ 2000 && rataDie d = easterMondayNum d.year)
  || (d.month = 12 && d.day = 25)
  || (d.year ≥ 2000 && d.month = 12 && d.day = 26)
  || (d.month = 12 && d.day = 31 && (d.year = 1998 || d.year = 1999 || d.year = 2001))

/-- Modelled from the spec: `isBusinessDay(cal, date)`.  Only the TARGET
rule is consumed by the program; the other calendars the `Convert`
dispatcher can name are modelled as weekend-only, since no claim touches
their holiday sets. -/
def isBusinessDay (cal : Cal) (d : PDate) : Bool :=
  match cal with
  | .target => !isWeekend d && !targetIsHoliday d
  | .unitedStates => !isWeekend d
  | .unitedKingdom => !isWeekend d

/-- Next calendar day. -/
def nextDay (d : PDate) : PDate :=
  if d.day < daysInMonth d.year d.month then ⟨d.year, d.month, d.day + 1⟩
  else if d.month < 12 then ⟨d.year, d.month + 1, 1⟩
  else ⟨d.year + 1, 1, 1⟩

/-- Previous calendar day. -/
def prevDay (d : PDate) : PDate :=
  if d.day > 1 then ⟨d.year, d.month, d.day - 1⟩
  else if d.month > 1 then ⟨d.year, d.month - 1, daysInMonth d.year (d.month - 1)⟩
  else ⟨d.year - 1, 12, 31⟩

/-- First business day at or after `d` (fuel-bounded scan; no real
calendar has anywhere near 366 consecutive holidays). -/
def nextBusiness (cal : Cal) : ℕ → PDate → PDate
  | 0, d => d
  | fuel + 1, d => if isBusinessDay cal d then d else nextBusiness cal fuel (nextDay d)

/-- First business day at or before `d` (fuel-bounded scan). -/
def prevBusiness (cal : Cal) : ℕ → PDate → PDate
  | 0, d => d
  | fuel + 1, d => if isBusinessDay cal d then d else prevBusiness cal fuel (prevDay d)

/-- Modelled from the spec: the business-day adjustment rule mapping any
date to a business day under a given calendar — Following rolls forward,
Preceding rolls back, the Modified variants fall back to the opposite
direction when the roll leaves the month, Unadjusted is the identity. -/
def bdAdjust (conv : Conv) (cal : Cal) (d : PDate) : PDate :=
  match conv with
  | .unadjusted => d
  | .following => nextBusiness cal 366 d
  | .preceding => prevBusiness cal 366 d
  | .modifiedFollowing =>
    let f := nextBusiness cal 366 d
    if f.month ≠ d.month then prevBusiness cal 366 d else f
  | .modifiedPreceding =>
    let p := prevBusiness cal 366 d
    if p.month ≠ d.month then nextBusiness cal 366 d else p

/-- Modelled from the spec: `advance(cal, date, n Days)` steps one
calendar day at a time, skipping non-business days, `n` times. -/
def calAdvanceDays (cal : Cal) (d : PDate) : ℕ → PDate
  | 0 => d
  | n + 1 => calAdvanceDays cal (nextBusiness cal 366 (nextDay d)) n

/-- Shift a date back by a number of months, clamping the day of month
to the target month's length (the external library's null-calendar month
arithmetic). -/
def subMonths (d : PDate) (k : ℕ) : PDate :=
  let tot := d.year * 12 + (d.month - 1) - k
  let y := tot / 12
  let m := tot % 12 + 1
  ⟨y, m, min d.day (daysInMonth y m)⟩

/-- Shift a date forward by a number of months, clamping the day. -/
def addMonths (d : PDate) (k : ℕ) : PDate :=
  let tot := d.year * 12 + (d.month - 1) + k
  let y := tot / 12
  let m := tot % 12 + 1
  ⟨y, m, min d.day (daysInMonth y m)⟩

/-- Strict date order via day numbers. -/
def pdLt (a b : PDate) : Bool := rataDie a < rataDie b

/-- Backward-generation seeds: the unadjusted dates `end − k·step`
months for `k = 0, 1, …` while they stay strictly after `start`, in
descending order (fuel-bounded; 4800 periods cover four centuries of
monthly stepping). -/
def backSeeds (startD endD : PDate) (step : ℕ) : ℕ → ℕ → List PDate
  | 0, _ => []
  | fuel + 1, k =>
    let d := subMonths endD (step * k)
    if pdLt startD d then d :: backSeeds startD endD step fuel (k + 1) else []

/-- Modelled from the spec: backward raw-date generation — step one
period at a time back from the end date, snapping the final (front) stub
to the start date. -/
def rawSchedBackward (startD endD : PDate) (step : ℕ) : List PDate :=
  startD :: (backSeeds startD endD step 4800 0).reverse

/-- Forward-generation seeds: `start + k·step` months while strictly
before `end`, ascending. -/
def fwdSeeds (startD endD : PDate) (step : ℕ) : ℕ → ℕ → List PDate
  | 0, _ => []
  | fuel + 1, k =>
    let d := addMonths startD (step * k)
    if pdLt d endD then d :: fwdSeeds startD endD step fuel (k + 1) else []

/-- Modelled from the spec: forward raw-date generation — step one
period at a time forward from the start date, snapping the final (back)
stub to the end date. -/
def rawSchedForward (startD endD : PDate) (step : ℕ) : List PDate :=
  fwdSeeds startD endD step 4800 0 ++ [endD]

/-- Month-step length of a period; schedule generation in this program
only ever steps by month-based periods (quarterly and annual), so
day/week periods have no modelled step. -/
def stepMonthsOfPeriod (p : Period) : Option ℕ :=
  match p.unit with
  | .month => some p.n
  | .year => some (12 * p.n)
  | .day => none
  | .week => none

/-- Business-day adjustment of every raw schedule date: interior and
front dates with the schedule's convention, the termination date with
the termination-date convention. -/
def adjustSchedule (cal : Cal) (conv termConv : Conv) (raw : List PDate) : List PDate :=
  raw.dropLast.map (bdAdjust conv cal)
    ++ (raw.getLast?).elim [] (fun d => [bdAdjust termConv cal d])

/-- Modelled from the spec: `generate(start, end, frequency, calendar,
adjustment, direction, endOfMonth) → Schedule` — raw unadjusted stepping
per the generation rule, then business-day adjustment of every date.
The end-of-month flag is accepted but has no effect: every schedule in
this program passes `False`, and the spec's month-end alignment only
applies when the start date is a month end (2008-02-06 is not). -/
def mkSchedule (startD endD : PDate) (p : Period) (cal : Cal)
    (conv termConv : Conv) (rule : GenRule) (eom : Bool) : Option (List PDate) :=
  (stepMonthsOfPeriod p).map (fun step =>
    let raw := match rule with
      | .backward => rawSchedBackward startD endD step
      | .forward => rawSchedForward startD endD step
    let _ := eom
    adjustSchedule cal conv termConv raw)

/-- Period length of a frequency enumerator (`ql.Period(frequency)`). -/
def periodOfFrequency (f : Frequency) : Period :=
  match f with
  | .annual => ⟨1, .year⟩
  | .semiannual => ⟨6, .month⟩
  | .quarterly => ⟨3, .month⟩
  | .monthly => ⟨1, .month⟩
  | .weekly => ⟨1, .week⟩
  | .daily => ⟨1, .day⟩

/-!
The `VanillaSwap` class.  Its constructor converts every string argument
through `Convert` and builds the two leg schedules; the static data
handed to the external `ql.VanillaSwap` + `DiscountingSwapEngine`
pricing kernel is collected in `PricingInputs`, and that kernel itself —
the fixed-leg/floating-leg present-value computation of spec section 4.4
— is an uninterpreted parameter `npv : PricingInputs → ℚ` of every
operation, since its numerics live in the external library.
-/

/-- Everything the constructed `ql.VanillaSwap` and its discounting
engine read: the nine `ql.VanillaSwap` constructor arguments (with the
curve-linked index) plus the engine's discounting curve. -/
structure PricingInputs where
  swapType : SwapType
  nominal : ℚ
  fixedSchedule : List PDate
  fixedRate : ℚ
  fixedDayCount : DayCounter
  floatingSchedule : List PDate
  iborIndex : IborIndex
  spread : ℚ
  floatingDayCount : DayCounter
  engineCurve : CurveInput
deriving DecidableEq, Inhabited

/-- Embeds `index.clone(curve)`: same family and tenor, forwarding term
structure replaced by the given curve. -/
def cloneIndex (c : CurveInput) (i : IborIndex) : IborIndex :=
  { i with fwd := some c }

/-- The mutable state of one Python `VanillaSwap` object: the member
data created in `__init__`, plus the `instrument` slot that the NPV
methods create (absent, i.e. `none`, until the first valuation call). -/
structure SwapState where
  ID : String
  swapType : SwapType
  nominal : ℚ
  startDate : PDate
  maturityDate : PDate
  fixedLegFrequency : Period
  fixedLegCalendar : Cal
  fixedLegConvention : Conv
  fixedLegDateGenerationRule : GenRule
  fixedLegRate : ℚ
  fixedLegDayCount : DayCounter
  fixedLegEndOfMonth : Bool
  floatingLegFrequency : Period
  floatingLegCalendar : Cal
  floatingLegConvention : Conv
  floatingLegDateGenerationRule : GenRule
  floatingLegSpread : ℚ
  floatingLegDayCount : DayCounter
  floatingLegEndOfMonth : Bool
  floatingLegIborIndex : IborIndex
  fixedLegSchedule : List PDate
  floatingLegSchedule : List PDate
  instrument : Option PricingInputs
deriving DecidableEq, Inhabited

/-- Embeds `VanillaSwap.__init__`: convert every string argument through
`Convert`, then build the two leg schedules.  Returns `none` when any
conversion yields no value or raises — in the source such an input makes
the constructor (or the very first use of the stored `None`) raise, so
no usable object exists; every swap the program constructs converts
successfully. -/
def mkVanillaSwap (ID : String) (swapType : String) (nominal : ℚ)
    (startDate maturityDate : String)
    (fixedLegFrequency fixedLegCalendar fixedLegConvention fixedLegDateGenerationRule : String)
    (fixedLegRate : ℚ) (fixedLegDayCount : String) (fixedLegEndOfMonth : Bool)
    (floatingLegFrequency floatingLegCalendar floatingLegConvention floatingLegDateGenerationRule : String)
    (floatingLegSpread : ℚ) (floatingLegDayCount : String) (floatingLegEndOfMonth : Bool)
    (floatingLegIborIndex : String) : Option SwapState := do
  let st ← Convert.to_swapType swapType
  let sd ← (Convert.to_date startDate).toOption
  let md ← (Convert.to_date maturityDate).toOption
  let ffq ← Convert.to_frequency fixedLegFrequency
  let fcal ← Convert.to_calendar fixedLegCalendar
  let fconv ← Convert.to_businessDayConvention fixedLegConvention
  let frule ← Convert.to_dateGenerationRule fixedLegDateGenerationRule
  let fdc ← Convert.to_dayCounter fixedLegDayCount
  let glfq ← Convert.to_frequency floatingLegFrequency
  let glcal ← Convert.to_calendar floatingLegCalendar
  let glconv ← Convert.to_businessDayConvention floatingLegConvention
  let glrule ← Convert.to_dateGenerationRule floatingLegDateGenerationRule
  let gldc ← Convert.to_dayCounter floatingLegDayCount
  let glidx ← (Convert.to_iborIndex floatingLegIborIndex).toOption.bind id
  let fsched ← mkSchedule sd md (periodOfFrequency ffq) fcal fconv fconv frule fixedLegEndOfMonth
  let glsched ← mkSchedule sd md (periodOfFrequency glfq) glcal glconv glconv glrule floatingLegEndOfMonth
  pure ⟨ID, st, nominal, sd, md, periodOfFrequency ffq, fcal, fconv, frule,
    fixedLegRate, fdc, fixedLegEndOfMonth, periodOfFrequency glfq, glcal, glconv,
    glrule, floatingLegSpread, gldc, floatingLegEndOfMonth, glidx, fsched, glsched, none⟩

/-- Embeds `VanillaSwap.NPV_calibration(x, args)` with the external
pricing kernel [ npv] as a parameter: concatenate the market rates and
the decision vector, build the candidate curve from the forward dates
and the concatenation with the floating leg's day count and calendar,
re-link the floating index to that curve (mutation: the clone is stored
back into the object), build the instrument, price it with a discounting
engine on the same curve.  Returns the value and the mutated object. -/
def NPV_calibration (npv : PricingInputs → ℚ) (s : SwapState) (x : List ℚ)
    (fwdDates : List PDate) (marketRates : List ℚ) : ℚ × SwapState :=
  let full := marketRates ++ x
  let curve : CurveInput := ⟨fwdDates, full, s.floatingLegDayCount, s.floatingLegCalendar⟩
  let idx2 := cloneIndex curve s.floatingLegIborIndex
  let inst : PricingInputs := ⟨s.swapType, s.nominal, s.fixedLegSchedule, s.fixedLegRate,
    s.fixedLegDayCount, s.floatingLegSchedule, idx2, s.floatingLegSpread,
    s.floatingLegDayCount, curve⟩
  (npv inst, { s with floatingLegIborIndex := idx2, instrument := some inst })

/-- Embeds `VanillaSwap.NPV(yieldTermStructureHandle, floatingLegIborIndex)`:
clone the argument index onto the argument curve (the clone is stored
back into the object), build the instrument, price it with a discounting
engine on the argument curve.  Returns the value and the mutated object. -/
def swapNPV (npv : PricingInputs → ℚ) (s : SwapState) (curveArg : CurveInput)
    (idxArg : IborIndex) : ℚ × SwapState :=
  let idx2 := cloneIndex curveArg idxArg
  let inst : PricingInputs := ⟨s.swapType, s.nominal, s.fixedLegSchedule, s.fixedLegRate,
    s.fixedLegDayCount, s.floatingLegSchedule, idx2, s.floatingLegSpread,
    s.floatingLegDayCount, curveArg⟩
  (npv inst, { s with floatingLegIborIndex := idx2, instrument := some inst })

/-- Embeds `np.diff`: successive differences `a[i+1] − a[i]`. -/
def npDiff (l : List ℚ) : List ℚ := List.zipWith (fun p q => p - q) l.tail l

/-- Embeds the module-level `ObjectiveFunction(x, args)`: concatenate
market rates and decision vector, square the successive differences,
scale each elementwise by the scaling factor, and sum. -/
def ObjectiveFunction (x marketRates : List ℚ) (scale : ℚ) : ℚ :=
  ((npDiff (marketRates ++ x)).map (fun d => d ^ 2 * scale)).sum

/-!
The module-level script: market data, swap construction, knot-date grid,
constraints and the scipy `minimize` call.
-/

/-- The `swapIDs` list. -/
def swapIDs : List String :=
  [r"2Y", r"3Y", r"4Y", r"5Y", r"6Y", r"7Y", r"8Y", r"9Y", r"10Y",
   r"12Y", r"15Y", r"20Y", r"25Y", r"30Y"]

/-- The `maturities` list. -/
def maturities : List String :=
  [r"2010-02-08", r"2011-02-07", r"2012-02-06", r"2013-02-06", r"2014-02-06",
   r"2015-02-06", r"2016-02-08", r"2017-02-06", r"2018-02-06", r"2020-02-06",
   r"2023-02-06", r"2028-02-07", r"2033-02-07", r"2038-02-08"]

/-- The `swapRates` list of par rates. -/
def swapRates : List ℚ :=
  [0.02795, 0.03035, 0.03275, 0.03505, 0.03715, 0.03885, 0.04025,
   0.04155, 0.04265, 0.04435, 0.04615, 0.04755, 0.04805, 0.04815]

/-- The `swaps` list comprehension: one `VanillaSwap` per
(id, maturity, par-rate) triple, with the shared static conventions.
Every construction succeeds on the program's data, so collecting the
successful constructions loses nothing. -/
def swaps : List SwapState :=
  (swapIDs.zip (maturities.zip swapRates)).filterMap (fun t =>
    mkVanillaSwap t.1 (r"Payer") 1000000 (r"2008-02-06") t.2.1 (r"Annual")
      (r"Target") (r"ModifiedFollowing") (r"Backward") t.2.2 (r"Actual360") false
      (r"Quarterly") (r"Target") (r"ModifiedFollowing") (r"Backward") 0
      (r"Actual360") false (r"USDLibor.3M"))

/-- The `initialMarketData` short-end forward rates. -/
def initialMarketData : List ℚ := [0.03145, 0.0279275, 0.0253077, 0.0249374]

/-- Embeds `np.full(117, 0.02)`: the initial decision-vector guess. -/
def initialForwardGuesses : List ℚ := List.replicate 117 0.02

/-- The objective's scaling factor. -/
def scalingFactor : ℚ := 1000000

/-- Embeds `ql.Date(4, 2, 2008)`: the evaluation date. -/
def today : PDate := ⟨2008, 2, 4⟩

/-- Embeds `ql.TARGET().advance(today, ql.Period(2, ql.Days))`. -/
def settlementDate : PDate := calAdvanceDays .target today 2

/-- The knot-date grid of line 210: quarterly TARGET schedule from the
settlement date to 2038-02-06, ModifiedFollowing, Backward-generated. -/
def knotDates : List PDate :=
  (mkSchedule settlementDate ⟨2038, 2, 6⟩ ⟨3, .month⟩ .target
    .modifiedFollowing .modifiedFollowing .backward false).getD []

/-- One scipy constraint dictionary: its `'type'` string and its
function of the decision vector. -/
structure ConstraintSpec where
  ctype : String
  cfun : List ℚ → ℚ

/-- The constraint dictionary built for one swap:
`{'type': 'eq', 'fun': swap.NPV_calibration, 'args': [[dates, initialMarketData]]}`. -/
def mkConstraint (npv : PricingInputs → ℚ) (sw : SwapState) : ConstraintSpec :=
  ⟨r"eq", fun x => (NPV_calibration npv sw x knotDates initialMarketData).1⟩

/-- The `swapConstraints` tuple: one equality constraint per swap. -/
def swapConstraints (npv : PricingInputs → ℚ) : List ConstraintSpec :=
  swaps.map (mkConstraint npv)

/-- The candidate curve a constraint evaluation builds from the current
decision vector: the fixed knot grid paired with the known market-rate
vector concatenated with `x`, under the swap's floating-leg day count
and calendar. -/
def candidateCurve (sw : SwapState) (x : List ℚ) : CurveInput :=
  ⟨knotDates, initialMarketData ++ x, sw.floatingLegDayCount, sw.floatingLegCalendar⟩

/-- Modelled from the spec: `npv(spec, curve)` of section 4.4 as a pure
function — price the swap's static terms with the index linked to the
given curve and the same curve discounting, via the external pricing
kernel. -/
def priceSwap (npv : PricingInputs → ℚ) (sw : SwapState) (curve : CurveInput) : ℚ :=
  npv ⟨sw.swapType, sw.nominal, sw.fixedLegSchedule, sw.fixedLegRate,
    sw.fixedLegDayCount, sw.floatingLegSchedule, cloneIndex curve sw.floatingLegIborIndex,
    sw.floatingLegSpread, sw.floatingLegDayCount, curve⟩

/-- The arguments of the `opt.minimize` call on lines 217–218. -/
structure MinimizeCall where
  objective : List ℚ → ℚ
  x0 : List ℚ
  method : String
  maxiter : ℕ
  constraints : List ConstraintSpec

/-- Embeds the `model = opt.minimize(...)` invocation: the objective
with its `args`, the initial guesses, SLSQP, an iteration cap of 500
and the swap constraints. -/
def modelCall (npv : PricingInputs → ℚ) : MinimizeCall :=
  ⟨fun x => ObjectiveFunction x initialMarketData scalingFactor,
    initialForwardGuesses, r"SLSQP", 500, swapConstraints npv⟩

/-- The final valuation curve of line 227, at a solver output `x`:
`ql.ForwardCurve(dates, concat(initialMarketData, model.x), Actual360, TARGET)`. -/
def finalCurve (x : List ℚ) : CurveInput :=
  ⟨knotDates, initialMarketData ++ x, .actual360, .target⟩

/-- The index built per swap in the final pricing loop (line 232):
`ql.USDLibor(ql.Period(3, ql.Months), curve)`. -/
def finalIndex (x : List ℚ) : IborIndex :=
  ⟨.usdLibor, ⟨3, .month⟩, some (finalCurve x)⟩

/-- Value of the `k`-th calibration constraint at decision vector `x`
(zero past the end of the instrument list). -/
def constraintNPV (npv : PricingInputs → ℚ) (k : ℕ) (x : List ℚ) : ℚ :=
  match swaps.get? k with
  | some sw => (NPV_calibration npv sw x knotDates initialMarketData).1
  | none => 0

/-- Repricing of the `k`-th swap in the final loop (lines 231–234)
against the curve built from the market-rate vector concatenated with
the solver output `x`. -/
def repriceNPV (npv : PricingInputs → ℚ) (k : ℕ) (x : List ℚ) : ℚ :=
  match swaps.get? k with
  | some sw => (swapNPV npv sw (finalCurve x) (finalIndex x)).1
  | none => 0

/-!
Helper lemmas, then one theorem per claim.
-/

/-- Shared floating-leg static data of every swap in the calibration
set: Actual/360 day count, TARGET calendar, a three-month USD Libor
index with no forwarding curve linked. -/
theorem swaps_floating_static : ∀ w ∈ swaps,
    w.floatingLegDayCount = DayCounter.actual360 ∧ w.floatingLegCalendar = Cal.target
    ∧ w.floatingLegIborIndex = ⟨IborFamily.usdLibor, ⟨3, PeriodUnit.month⟩, none⟩ := by
  decide

/-- The final-loop repricing of a swap evaluates the external pricing
kernel at exactly the inputs its calibration constraint evaluates it at:
the same static data, the same curve built from the market-rate vector
concatenated with the decision vector over the knot grid. -/
theorem reprice_eq_constraint (npv : PricingInputs → ℚ) (x : List ℚ) (k : ℕ) :
    repriceNPV npv k x = constraintNPV npv k x := by
  unfold repriceNPV constraintNPV
  cases hg : swaps.get? k with
  | none => rfl
  | some sw =>
    obtain ⟨h1, h2, h3⟩ := swaps_floating_static sw (List.get?_mem hg)
    simp [swapNPV, NPV_calibration, cloneIndex, finalCurve, finalIndex, h1, h2, h3]

/-- Sum of elementwise-scaled squared successive differences, written as
an indexed sum. -/
theorem npDiff_sq_sum (s : ℚ) : ∀ l : List ℚ,
    ((npDiff l).map (fun d => d ^ 2 * s)).sum
      = s * ∑ i in Finset.range (l.length - 1), (l.getD (i + 1) 0 - l.getD i 0) ^ 2 := by
  intro l
  induction l with
  | nil => simp [npDiff]
  | cons a t ih =>
    cases t with
    | nil => simp [npDiff]
    | cons b t2 =>
      have hd : npDiff (a :: b :: t2) = (b - a) :: npDiff (b :: t2) := rfl
      have hlen : (a :: b :: t2).length - 1 = ((b :: t2).length - 1) + 1 := by simp
      rw [hd, List.map_cons, List.sum_cons, ih, hlen, Finset.sum_range_succ']
      simp only [List.getD_cons_succ, List.getD_cons_zero, List.length_cons,
        Nat.add_sub_cancel]
      ring

/-- Upper-casing a character other than the dot never yields the dot. -/
theorem charUpper_dot_iff (c : Char) : charUpper c = '.' ↔ c = '.' := by
  by_cases h1 : c = 'a'
  · subst h1; decide
  by_cases h2 : c = 'b'
  · subst h2; decide
  by_cases h3 : c = 'c'
  · subst h3; decide
  by_cases h4 : c = 'd'
  · subst h4; decide
  by_cases h5 : c = 'e'
  · subst h5; decide
  by_cases h6 : c = 'f'
  · subst h6; decide
  by_cases h7 : c = 'g'
  · subst h7; decide
  by_cases h8 : c = 'h'
  · subst h8; decide
  by_cases h9 : c = 'i'
  · subst h9; decide
  by_cases h10 : c = 'j'
  · subst h10; decide
  by_cases h11 : c = 'k'
  · subst h11; decide
  by_cases h12 : c = 'l'
  · subst h12; decide
  by_cases h13 : c = 'm'
  · subst h13; decide
  by_cases h14 : c = 'n'
  · subst h14; decide
  by_cases h15 : c = 'o'
  · subst h15; decide
  by_cases h16 : c = 'p'
  · subst h16; decide
  by_cases h17 : c = 'q'
  · subst h17; decide
  by_cases h18 : c = 'r'
  · subst h18; decide
  by_cases h19 : c = 's'
  · subst h19; decide
  by_cases h20 : c = 't'
  · subst h20; decide
  by_cases h21 : c = 'u'
  · subst h21; decide
  by_cases h22 : c = 'v'
  · subst h22; decide
  by_cases h23 : c = 'w'
  · subst h23; decide
  by_cases h24 : c = 'x'
  · subst h24; decide
  by_cases h25 : c = 'y'
  · subst h25; decide
  by_cases h26 : c = 'z'
  · subst h26; decide
  unfold charUpper
  simp only [if_neg h1, if_neg h2, if_neg h3, if_neg h4, if_neg h5, if_neg h6,
    if_neg h7, if_neg h8, if_neg h9, if_neg h10, if_neg h11, if_neg h12,
    if_neg h13, if_neg h14, if_neg h15, if_neg h16, if_neg h17, if_neg h18,
    if_neg h19, if_neg h20, if_neg h21, if_neg h22, if_neg h23, if_neg h24,
    if_neg h25, if_neg h26]

/-- Unfolding equation of `splitOnDot` at a dot. -/
theorem splitOnDot_cons_dot (t : List Char) :
    splitOnDot ('.' :: t) = [] :: splitOnDot t := by
  simp [splitOnDot]

/-- Unfolding equation of `splitOnDot` at a non-dot character. -/
theorem splitOnDot_cons_ne (c : Char) (t : List Char) (h : ¬ c = '.') :
    splitOnDot (c :: t) = (c :: (splitOnDot t).headD []) :: (splitOnDot t).tail := by
  simp [splitOnDot, h]

/-- Head-with-default commutes with mapping `pyUpper` over the pieces. -/
theorem headD_map_upper (l : List (List Char)) :
    (l.map pyUpper).headD [] = pyUpper (l.headD []) := by
  cases l <;> simp [pyUpper]

/-- Tail commutes with mapping over the pieces. -/
theorem tail_map_upper (l : List (List Char)) :
    (l.map pyUpper).tail = l.tail.map pyUpper := by
  cases l <;> simp

/-- Dot-splitting commutes with upper-casing: splitting the upper-cased
string gives the upper-cased pieces (the dot is case-invariant and no
character upper-cases to a dot). -/
theorem splitOnDot_upper : ∀ l : List Char,
    splitOnDot (pyUpper l) = (splitOnDot l).map pyUpper := by
  intro l
  induction l with
  | nil => rfl
  | cons c t ih =>
    by_cases hc : c = '.'
    · subst hc
      have hcu : charUpper '.' = '.' := by decide
      show splitOnDot (charUpper '.' :: pyUpper t) = _
      rw [hcu, splitOnDot_cons_dot, splitOnDot_cons_dot, ih, List.map_cons]
      rfl
    · have hcu : ¬ charUpper c = '.' := fun h2 => hc ((charUpper_dot_iff c).mp h2)
      show splitOnDot (charUpper c :: pyUpper t) = _
      rw [splitOnDot_cons_ne _ _ hcu, splitOnDot_cons_ne _ _ hc, ih, List.map_cons,
        headD_map_upper, tail_map_upper]
      rfl

/-- C1: after a successful calibration run — the solver having driven
every calibration constraint's absolute value within its tolerance —
repricing every swap of the calibration set against the curve built from
the known market-rate vector concatenated with the returned decision
vector (line 227) yields an NPV within the same tolerance of zero,
because the final-loop repricing evaluates the external pricing kernel
at exactly the constraint's inputs. -/
theorem c1_round_trip (npv : PricingInputs → ℚ) (x : List ℚ) (eps : ℚ)
    (h : ∀ k, k < swaps.length → |constraintNPV npv k x| ≤ eps) :
    ∀ k, k < swaps.length → |repriceNPV npv k x| ≤ eps := by
  intro k hk
  rw [reprice_eq_constraint]
  exact h k hk

/-- C1 witness: with the zero pricing kernel every constraint is met
exactly, and the theorem transports that bound to the repricing. -/
theorem c1_round_trip_witness :
    (∀ k, k < swaps.length → |constraintNPV (fun _ => (0 : ℚ)) k initialForwardGuesses| ≤ 0)
    ∧ (∀ k, k < swaps.length → |repriceNPV (fun _ => (0 : ℚ)) k initialForwardGuesses| ≤ 0) :=
  have h : ∀ k, k < swaps.length →
      |constraintNPV (fun _ => (0 : ℚ)) k initialForwardGuesses| ≤ 0 := by decide
  ⟨h, c1_round_trip (fun _ => (0 : ℚ)) initialForwardGuesses 0 h⟩

/-- C2 counterexample: an unrecognised calendar name and an unrecognised
frequency name make the conversion return Python `None` (modelled
`none`) — a normal return of a value, not a raised `ConfigurationError`
(no such error type exists in the program), refuting the claim that the
conversion fails and never silently returns. -/
theorem c2_counterexample :
    Convert.to_calendar (r"HELSINKI") = none
    ∧ Convert.to_frequency (r"FORTNIGHTLY") = none := by
  decide

/-- C2 amended: for every unrecognised identifier, each of the six
plain dispatchers — calendar, day count, frequency, business-day
adjustment, date-generation rule, swap type — returns `None` without
raising anything, and `to_iborIndex` returns `None` whenever the index
family (the piece before the first dot) is unrecognised; `to_iborIndex`
does raise for a recognised family with a defective tenor — a built-in
`IndexError` when the tenor piece is missing, a library error when it
is unparsable — and a malformed date string makes `to_date` raise a
built-in `KeyError` (bad month token) or `IndexError` (too few
tokens).  None of these is a `ConfigurationError`, which the code does
not define. -/
theorem c2_amended :
    (∀ s : String, pyUpper s.data ∉
        [(r"TARGET").data, (r"UNITEDSTATES").data, (r"UNITEDKINGDOM").data] →
      Convert.to_calendar s = none)
    ∧ (∀ s : String, pyUpper s.data ∉
        [(r"ACTUAL360").data, (r"ACTUAL365FIXED").data, (r"ACTUALACTUAL").data,
         (r"ACTUAL365NOLEAP").data, (r"BUSINESS252").data, (r"ONEDAYCOUNTER").data,
         (r"SIMPLEDAYCOUNTER").data, (r"THIRTY360").data] →
      Convert.to_dayCounter s = none)
    ∧ (∀ s : String, pyUpper s.data ∉
        [(r"DAILY").data, (r"WEEKLY").data, (r"MONTHLY").data,
         (r"QUARTERLY").data, (r"SEMIANNUAL").data, (r"ANNUAL").data] →
      Convert.to_frequency s = none)
    ∧ (∀ s : String, pyUpper s.data ∉
        [(r"FOLLOWING").data, (r"MODIFIEDFOLLOWING").data, (r"PRECEDING").data,
         (r"MODIFIEDPRECEDING").data, (r"UNADJUSTED").data] →
      Convert.to_businessDayConvention s = none)
    ∧ (∀ s : String, pyUpper s.data ∉ [(r"BACKWARD").data, (r"FORWARD").data] →
      Convert.to_dateGenerationRule s = none)
    ∧ (∀ s : String, pyUpper s.data ∉ [(r"PAYER").data, (r"RECEIVER").data] →
      Convert.to_swapType s = none)
    ∧ (∀ s : String, ((splitOnDot s.data).map pyUpper).headD [] ∉
        [(r"USDLIBOR").data, (r"EURIBOR").data] →
      Convert.to_iborIndex s = .ok none)
    ∧ Convert.to_iborIndex (r"USDLibor") = .error .indexError
    ∧ Convert.to_iborIndex (r"USDLibor.3X") = .error .qlError
    ∧ Convert.to_date (r"2008-13-06") = .error .keyError
    ∧ Convert.to_date (r"20080206") = .error .indexError := by
  refine ⟨?_, ?_, ?_, ?_, ?_, ?_, ?_, by decide, by decide, by decide, by decide⟩
  · intro s hs
    unfold Convert.to_calendar Convert.calendarOfKey
    split_ifs with h1 h2 h3
    · exact absurd (by rw [h1]; simp) hs
    · exact absurd (by rw [h2]; simp) hs
    · exact absurd (by rw [h3]; simp) hs
    · rfl
  · intro s hs
    unfold Convert.to_dayCounter Convert.dayCounterOfKey
    split_ifs with h1 h2 h3 h4 h5 h6 h7 h8
    · exact absurd (by rw [h1]; simp) hs
    · exact absurd (by rw [h2]; simp) hs
    · exact absurd (by rw [h3]; simp) hs
    · exact absurd (by rw [h4]; simp) hs
    · exact absurd (by rw [h5]; simp) hs
    · exact absurd (by rw [h6]; simp) hs
    · exact absurd (by rw [h7]; simp) hs
    · exact absurd (by rw [h8]; simp) hs
    · rfl
  · intro s hs
    unfold Convert.to_frequency Convert.frequencyOfKey
    split_ifs with h1 h2 h3 h4 h5 h6
    · exact absurd (by rw [h1]; simp) hs
    · exact absurd (by rw [h2]; simp) hs
    · exact absurd (by rw [h3]; simp) hs
    · exact absurd (by rw [h4]; simp) hs
    · exact absurd (by rw [h5]; simp) hs
    · exact absurd (by rw [h6]; simp) hs
    · rfl
  · intro s hs
    unfold Convert.to_businessDayConvention Convert.conventionOfKey
    split_ifs with h1 h2 h3 h4 h5
    · exact absurd (by rw [h1]; simp) hs
    · exact absurd (by rw [h2]; simp) hs
    · exact absurd (by rw [h3]; simp) hs
    · exact absurd (by rw [h4]; simp) hs
    · exact absurd (by rw [h5]; simp) hs
    · rfl
  · intro s hs
    unfold Convert.to_dateGenerationRule Convert.genRuleOfKey
    split_ifs with h1 h2
    · exact absurd (by rw [h1]; simp) hs
    · exact absurd (by rw [h2]; simp) hs
    · rfl
  · intro s hs
    unfold Convert.to_swapType Convert.swapTypeOfKey
    split_ifs with h1 h2
    · exact absurd (by rw [h1]; simp) hs
    · exact absurd (by rw [h2]; simp) hs
    · rfl
  · intro s hs
    unfold Convert.to_iborIndex
    cases hp : (splitOnDot s.data).map pyUpper with
    | nil => rfl
    | cons f rest =>
      rw [hp, List.headD_cons] at hs
      cases rest with
      | nil =>
        dsimp only [Convert.iborDispatch]
        split_ifs with h1
        · rcases h1 with h1 | h1
          · exact absurd (by rw [h1]; simp) hs
          · exact absurd (by rw [h1]; simp) hs
        · rfl
      | cons ten rest2 =>
        dsimp only [Convert.iborDispatch]
        split_ifs with h1 h2
        · exact absurd (by rw [h1]; simp) hs
        · exact absurd (by rw [h2]; simp) hs
        · rfl

/-- C2 amended witness: a concrete unrecognised identifier for each of
the seven conversions. -/
theorem c2_amended_witness :
    (pyUpper (r"OSLO").data ∉
        [(r"TARGET").data, (r"UNITEDSTATES").data, (r"UNITEDKINGDOM").data]
      ∧ Convert.to_calendar (r"OSLO") = none)
    ∧ (pyUpper (r"ACT365").data ∉
        [(r"ACTUAL360").data, (r"ACTUAL365FIXED").data, (r"ACTUALACTUAL").data,
         (r"ACTUAL365NOLEAP").data, (r"BUSINESS252").data, (r"ONEDAYCOUNTER").data,
         (r"SIMPLEDAYCOUNTER").data, (r"THIRTY360").data]
      ∧ Convert.to_dayCounter (r"ACT365") = none)
    ∧ (pyUpper (r"BIWEEKLY").data ∉
        [(r"DAILY").data, (r"WEEKLY").data, (r"MONTHLY").data,
         (r"QUARTERLY").data, (r"SEMIANNUAL").data, (r"ANNUAL").data]
      ∧ Convert.to_frequency (r"BIWEEKLY") = none)
    ∧ (pyUpper (r"NEAREST").data ∉
        [(r"FOLLOWING").data, (r"MODIFIEDFOLLOWING").data, (r"PRECEDING").data,
         (r"MODIFIEDPRECEDING").data, (r"UNADJUSTED").data]
      ∧ Convert.to_businessDayConvention (r"NEAREST") = none)
    ∧ (pyUpper (r"SIDEWAYS").data ∉ [(r"BACKWARD").data, (r"FORWARD").data]
      ∧ Convert.to_dateGenerationRule (r"SIDEWAYS") = none)
    ∧ (pyUpper (r"SELLER").data ∉ [(r"PAYER").data, (r"RECEIVER").data]
      ∧ Convert.to_swapType (r"SELLER") = none)
    ∧ (((splitOnDot (r"CHFLIBOR.3M").data).map pyUpper).headD [] ∉
        [(r"USDLIBOR").data, (r"EURIBOR").data]
      ∧ Convert.to_iborIndex (r"CHFLIBOR.3M") = .ok none) :=
  ⟨⟨by decide, c2_amended.1 (r"OSLO") (by decide)⟩,
   ⟨by decide, c2_amended.2.1 (r"ACT365") (by decide)⟩,
   ⟨by decide, c2_amended.2.2.1 (r"BIWEEKLY") (by decide)⟩,
   ⟨by decide, c2_amended.2.2.2.1 (r"NEAREST") (by decide)⟩,
   ⟨by decide, c2_amended.2.2.2.2.1 (r"SIDEWAYS") (by decide)⟩,
   ⟨by decide, c2_amended.2.2.2.2.2.1 (r"SELLER") (by decide)⟩,
   ⟨by decide, c2_amended.2.2.2.2.2.2.1 (r"CHFLIBOR.3M") (by decide)⟩⟩

/-- C3 counterexample: calling `NPV_calibration` on the first
calibration swap changes the object — the built instrument is stored
into the `instrument` slot (and the floating index is re-linked), so a
valuation call does mutate fields of the swap object, refuting the
no-side-effect claim. -/
theorem c3_counterexample :
    (NPV_calibration (fun _ => (0 : ℚ)) (swaps.headD default)
        initialForwardGuesses knotDates initialMarketData).2
      ≠ swaps.headD default :=
  fun h => absurd (congrArg (fun st => st.instrument.isSome) h) (by decide)

/-- C3 amended: a valuation call is deterministic — an immediately
repeated identical call returns the same value and leaves the state it
produced unchanged, so no hidden state influences the result — but it
does mutate the swap object: `NPV_calibration` re-links the floating
index to the candidate curve built from the given dates and the
market-rate vector concatenated with the decision vector (and stores the
built instrument), so curve state is retained on the object across
optimizer iterations. -/
theorem c3_amended (npv : PricingInputs → ℚ) (s : SwapState) (x : List ℚ)
    (fd : List PDate) (mr : List ℚ) (curve : CurveInput) (idx : IborIndex) :
    ((NPV_calibration npv ((NPV_calibration npv s x fd mr).2) x fd mr).1
        = (NPV_calibration npv s x fd mr).1
      ∧ (NPV_calibration npv ((NPV_calibration npv s x fd mr).2) x fd mr).2
        = (NPV_calibration npv s x fd mr).2)
    ∧ ((swapNPV npv ((swapNPV npv s curve idx).2) curve idx).1
        = (swapNPV npv s curve idx).1
      ∧ (swapNPV npv ((swapNPV npv s curve idx).2) curve idx).2
        = (swapNPV npv s curve idx).2)
    ∧ ((NPV_calibration npv s x fd mr).2).floatingLegIborIndex.fwd
        = some ⟨fd, mr ++ x, s.floatingLegDayCount, s.floatingLegCalendar⟩ :=
  ⟨⟨rfl, rfl⟩, ⟨rfl, rfl⟩, rfl⟩

/-- C4: the objective function equals the scaling factor times the sum
of squared first differences of the full forward-rate vector, the known
market-rate vector concatenated with the decision vector. -/
theorem c4_objective (x marketRates : List ℚ) (scale : ℚ) :
    ObjectiveFunction x marketRates scale
      = scale * ∑ i in Finset.range ((marketRates ++ x).length - 1),
          ((marketRates ++ x).getD (i + 1) 0 - (marketRates ++ x).getD i 0) ^ 2 :=
  npDiff_sq_sum scale (marketRates ++ x)

/-- C5: the optimization problem has exactly one constraint per
calibration instrument, every one an equality constraint, and each
constraint's evaluation at a decision vector prices its swap — via the
external kernel — against the candidate curve rebuilt from the current
decision vector concatenated after the known market-rate vector over
the fixed knot-date grid. -/
theorem c5_constraints (npv : PricingInputs → ℚ) :
    (swapConstraints npv).length = swaps.length
    ∧ (∀ k, ((swapConstraints npv).get? k).map ConstraintSpec.ctype
        = (swaps.get? k).map (fun _ => (r"eq")))
    ∧ (∀ k x, ((swapConstraints npv).get? k).map (fun c => c.cfun x)
        = (swaps.get? k).map (fun sw => priceSwap npv sw (candidateCurve sw x))) := by
  refine ⟨by simp [swapConstraints], ?_, ?_⟩
  · intro k
    rw [swapConstraints, List.get?_map]
    cases swaps.get? k <;> rfl
  · intro k x
    rw [swapConstraints, List.get?_map]
    cases swaps.get? k <;> rfl

/-- C6: the decision vector length equals the knot count minus the
market-rate vector length — 117 initial guesses plus the 4 known
short-end rates exactly cover the 121 dates of the quarterly knot grid. -/
theorem c6_lengths :
    initialForwardGuesses.length = knotDates.length - initialMarketData.length
    ∧ initialForwardGuesses.length + initialMarketData.length = knotDates.length
    ∧ initialForwardGuesses.length = 117
    ∧ initialMarketData.length = 4
    ∧ knotDates.length = 121 := by
  decide

/-- C7: the knot grid starts at the settlement date — two TARGET
business days after the 2008-02-04 evaluation date, i.e. 2008-02-06 —
and its last date, the ModifiedFollowing adjustment of the raw
2038-02-06 endpoint, is 2038-02-08, the maturity date of the longest
(30Y) calibration swap. -/
theorem c7_knot_grid :
    knotDates.head? = some settlementDate
    ∧ settlementDate = calAdvanceDays Cal.target today 2
    ∧ settlementDate = ⟨2008, 2, 6⟩
    ∧ knotDates.getLast? = some ⟨2038, 2, 8⟩
    ∧ bdAdjust Conv.modifiedFollowing Cal.target ⟨2038, 2, 6⟩ = ⟨2038, 2, 8⟩
    ∧ (swaps.getLast?).map SwapState.maturityDate = some ⟨2038, 2, 8⟩ := by
  decide

/-- C8: the optimizer invocation uses the SLSQP sequential-quadratic-
programming method with an iteration cap of 500, an initial guess of
0.02 at every one of the 117 tail knots, and equality constraints only. -/
theorem c8_solver_config (npv : PricingInputs → ℚ) :
    (modelCall npv).method = r"SLSQP"
    ∧ (modelCall npv).maxiter = 500
    ∧ (modelCall npv).x0 = List.replicate 117 0.02
    ∧ (modelCall npv).x0.length = 117
    ∧ (modelCall npv).constraints.length = 14
    ∧ ((modelCall npv).constraints.all (fun c => decide (c.ctype = r"eq"))) = true := by
  refine ⟨rfl, rfl, rfl, ?_, ?_, ?_⟩
  · show initialForwardGuesses.length = 117
    decide
  · show (swaps.map (mkConstraint npv)).length = 14
    rw [List.length_map]
    decide
  · show ((swaps.map (mkConstraint npv)).all (fun c => decide (c.ctype = r"eq"))) = true
    rw [List.all_eq_true]
    intro c hc
    rcases List.mem_map.mp hc with ⟨sw, _, rfl⟩
    simp [mkConstraint]

/-- C9: every `Convert` string dispatch is case-insensitive — two inputs
equal up to letter casing (equal after upper-casing) convert
identically through all seven identifier conversions. -/
theorem c9_case_insensitive (s t : String) (h : pyUpper s.data = pyUpper t.data) :
    Convert.to_calendar s = Convert.to_calendar t
    ∧ Convert.to_dayCounter s = Convert.to_dayCounter t
    ∧ Convert.to_frequency s = Convert.to_frequency t
    ∧ Convert.to_businessDayConvention s = Convert.to_businessDayConvention t
    ∧ Convert.to_dateGenerationRule s = Convert.to_dateGenerationRule t
    ∧ Convert.to_swapType s = Convert.to_swapType t
    ∧ Convert.to_iborIndex s = Convert.to_iborIndex t := by
  refine ⟨?_, ?_, ?_, ?_, ?_, ?_, ?_⟩
  · unfold Convert.to_calendar; rw [h]
  · unfold Convert.to_dayCounter; rw [h]
  · unfold Convert.to_frequency; rw [h]
  · unfold Convert.to_businessDayConvention; rw [h]
  · unfold Convert.to_dateGenerationRule; rw [h]
  · unfold Convert.to_swapType; rw [h]
  · unfold Convert.to_iborIndex
    rw [← splitOnDot_upper, ← splitOnDot_upper, h]

/-- C9 witness: a mixed-case and an upper-case spelling of the TARGET
calendar name convert identically. -/
theorem c9_case_insensitive_witness :
    pyUpper (r"TaRgEt").data = pyUpper (r"TARGET").data
    ∧ Convert.to_calendar (r"TaRgEt") = Convert.to_calendar (r"TARGET") :=
  ⟨by decide, (c9_case_insensitive (r"TaRgEt") (r"TARGET") (by decide)).1⟩

/-- C10: date parsing splits on non-word separators (dash and slash
parse identically), reads year-month-day, succeeds on a zero-padded
month token, raises `KeyError` on any other month token (for example
`'2'`), raises `IndexError` on fewer than three tokens, and returns no
date whenever the month token is not one of the dictionary keys. -/
theorem c10_to_date :
    Convert.to_date (r"2008-02-06") = .ok ⟨2008, 2, 6⟩
    ∧ Convert.to_date (r"2008/02/06") = Convert.to_date (r"2008-02-06")
    ∧ Convert.to_date (r"2008-2-06") = .error .keyError
    ∧ (∀ s : String, (tokenize s.data).length < 3 →
        Convert.to_date s = .error .indexError)
    ∧ (∀ s : String, monthOfTok ((tokenize s.data).getD 1 []) = none →
        (Convert.to_date s).toOption = none) := by
  refine ⟨by decide, by decide, by decide, ?_, ?_⟩
  · intro s hlen
    simp only [Convert.to_date, pyIndex]
    rw [List.get?_eq_none.mpr (by omega : (tokenize s.data).length ≤ 2)]
  · intro s h
    simp only [Convert.to_date]
    rw [h]
    split
    · rfl
    · split
      · rfl
      · rfl

/-- C10 witness: a one-token string has too few tokens and raises
`IndexError`; a string with month token `99` returns no date. -/
theorem c10_to_date_witness :
    ((tokenize (r"2008").data).length < 3
      ∧ Convert.to_date (r"2008") = .error .indexError)
    ∧ (monthOfTok ((tokenize (r"2008-99-06").data).getD 1 []) = none
      ∧ (Convert.to_date (r"2008-99-06")).toOption = none) :=
  ⟨⟨by decide, c10_to_date.2.2.2.1 (r"2008") (by decide)⟩,
   ⟨by decide, c10_to_date.2.2.2.2 (r"2008-99-06") (by decide)⟩⟩

end CurveCalib
